import Mathlib

/-!
Shallow embedding of `chainer/datasets/mnist.py`.

Conventions of the embedding:
* a byte is a `Nat` (well-formed data keeps bytes below 256);
* a decompressed gzip stream is a `List Nat` of its bytes, and reading `k`
  bytes from the front of a stream is `take`/`drop` (Python `read(k)` returns
  fewer bytes at end of stream, which `take` also does);
* Python exceptions are the `PyErr` type and fallible code returns
  `Except PyErr _`;
* `numpy.float32` arithmetic is modelled exactly over `ℚ` (the idealised
  arithmetic the spec describes), and `numpy.int32` over `Int`;
* the filesystem and the set of performed downloads are threaded through the
  code as an explicit `World` value.
-/

inductive PyErr where
  | structError
  | typeError
  | runtimeError (msg : String)
  | valueError (msg : String)
  | ioError
deriving DecidableEq

/-- Byte codes of the ASCII whitespace characters accepted by the CPython
struct format scanner. -/
def isSpaceByte (b : Nat) : Bool := b = 32 || (9 ≤ b && b ≤ 13)

/-- Byte codes of the ASCII digits. -/
def isDigitByte (b : Nat) : Bool := 48 ≤ b && b ≤ 57

/-- Byte codes of the struct format characters
"x c b B ? h H i I l L q Q n N e f d s p P". -/
def isFmtCharByte (b : Nat) : Bool :=
  b = 120 || b = 99 || b = 98 || b = 66 || b = 63 || b = 104 || b = 72 ||
  b = 105 || b = 73 || b = 108 || b = 76 || b = 113 || b = 81 || b = 110 ||
  b = 78 || b = 101 || b = 102 || b = 100 || b = 115 || b = 112 || b = 80

/-- Byte codes of the byte-order marks "@ = < > !" recognised at the start of
a struct format string. -/
def isOrderByte (b : Nat) : Bool := b = 64 || b = 61 || b = 60 || b = 62 || b = 33

/-- Scanner for the body of a CPython struct format string.  The flag records
whether a repeat count is pending: a count must be followed directly by a
format character, and a count at the end of the string is an error
("repeat count given without format specifier").  A byte that is not
whitespace, a digit or a format character is an error
("bad char in struct format"). -/
def scanFmt : Bool → List Nat → Bool
  | false, [] => true
  | true, [] => false
  | true, b :: rest =>
    if isDigitByte b then scanFmt true rest
    else if isFmtCharByte b then scanFmt false rest
    else false
  | false, b :: rest =>
    if isSpaceByte b then scanFmt false rest
    else if isDigitByte b then scanFmt true rest
    else if isFmtCharByte b then scanFmt false rest
    else false

/-- Validity of a byte string as a CPython struct format: an optional leading
byte-order mark followed by a scannable body.  (The native-only restriction on
"n N" after an explicit byte order and the overflow check on repeat counts are
not modelled; both could only turn a `struct.error` below into a `TypeError`,
and every claim treats the two the same way.) -/
def structFmtOk (bs : List Nat) : Bool :=
  match bs with
  | [] => true
  | b :: rest => if isOrderByte b then scanFmt false rest else scanFmt false bs

/-- CPython `struct.unpack(fmt, buffer)` as called on lines 94 and 95 of the
source, where the two arguments are swapped: the first argument received is
the four raw bytes just read from the stream (used as the format string) and
the second is the text ">i" (used as the buffer).  CPython first compiles the
format argument and raises `struct.error` if it is not a valid format string;
if the four bytes do compile, the buffer argument is converted next, and under
Python 3 the `str` value ">i" is not bytes-like, so `TypeError` is raised.
Every path raises, so the function returns the raised error. -/
def struct_unpack_swapped (data : List Nat) : PyErr :=
  if structFmtOk data then PyErr.typeError else PyErr.structError

instance {ε α : Type} [DecidableEq ε] [DecidableEq α] : DecidableEq (Except ε α) := fun a b =>
  match a, b with
  | Except.ok x, Except.ok y =>
    if h : x = y then Decidable.isTrue (by rw [h])
    else Decidable.isFalse (by intro hc; cases hc; exact h rfl)
  | Except.error x, Except.error y =>
    if h : x = y then Decidable.isTrue (by rw [h])
    else Decidable.isFalse (by intro hc; cases hc; exact h rfl)
  | Except.ok _, Except.error _ => Decidable.isFalse (by intro hc; cases hc)
  | Except.error _, Except.ok _ => Decidable.isFalse (by intro hc; cases hc)

/-- Dense array: a shape together with the flat (row-major) element list, as
a model of a numpy ndarray by value. -/
structure Tensor (α : Type) where
  shape : List Nat
  data : List α
deriving DecidableEq

/-- Result of a successful parse of one split: the byte tensors `x` of shape
`(N, 784)` and `y` of shape `(N,)` (the value `_make_npz` would save and
return). -/
structure RawSplit where
  x : Tensor Nat
  y : Tensor Nat
deriving DecidableEq

/-- Well-formedness of a `RawSplit` holding `N` records: shapes `[N, 784]`
and `[N]`, matching flat lengths, and byte-valued entries. -/
def RawSplit.wf (r : RawSplit) (N : Nat) : Prop :=
  r.x.shape = [N, 784] ∧ r.x.data.length = N * 784 ∧
  r.y.shape = [N] ∧ r.y.data.length = N ∧
  (∀ b ∈ r.x.data, b < 256) ∧ (∀ b ∈ r.y.data, b < 256)

instance (r : RawSplit) (N : Nat) : Decidable (r.wf N) := by
  unfold RawSplit.wf; infer_instance

/-- Body of the `with gzip.open(...)` block of `_make_npz` (lines 91 to 105),
acting on the two decompressed streams.  `fx.read(4)` and `fy.read(4)` skip
the magic fields; the next two reads feed the swapped `struct.unpack` calls;
were a count ever produced it would be a tuple of `Int`, so the comparison of
line 95, the 8-byte dimension skip of line 97 and the `numpy.empty((N, 784))`
call of line 99 are kept in order, the last raising `TypeError` because a
tuple is not a valid dimension.  The byte-copying loops of lines 102 to 105
are unreachable: `numpy.empty` raises first, and in fact the first
`struct.unpack` call already raises on every input. -/
def parse_streams (fx fy : List Nat) : Except PyErr RawSplit := do
  let fx1 := fx.drop 4
  let fy1 := fy.drop 4
  let N : List Int ← Except.error (struct_unpack_swapped (fx1.take 4))
  let fx2 := fx1.drop 4
  let N2 : List Int ← Except.error (struct_unpack_swapped (fy1.take 4))
  let _fy2 := fy1.drop 4
  if N ≠ N2 then
    Except.error (PyErr.runtimeError "wrong pair of MNIST images and labels")
  else
    let _fx3 := fx2.drop 8
    Except.error PyErr.typeError

/-- Big-endian encoding of `n` in `k` bytes (the low `8 * k` bits of `n`). -/
def natToBE : Nat → Nat → List Nat
  | 0, _ => []
  | k + 1, n => natToBE k (n / 256) ++ [n % 256]

/-- Big-endian decoding of a byte list. -/
def beToNat (bs : List Nat) : Nat := bs.foldl (fun a b => a * 256 + b) 0

/-- Modelled from the spec: `numpy.savez_compressed(path, x=x, y=y)` (line 107
of the source) writes a compressed serialized archive holding the two named
byte arrays.  The archive format is a library collaborator outside the source
tree, and the spec fixes only that the archive holds `x` of shape `(N, 784)`
and `y` of shape `(N,)` and that it round-trips byte for byte, so a concrete
length-prefixed serialization stands in for it: eight bytes of record count,
big-endian, then the `N * 784` image bytes, then the `N` label bytes. -/
def npz_save (r : RawSplit) : List Nat :=
  natToBE 8 r.y.data.length ++ r.x.data ++ r.y.data

/-- Modelled from the spec: the decoder paired with `npz_save`, reading the
record count and splitting the payload back into the two named arrays. -/
def npz_load (bs : List Nat) : Option RawSplit :=
  if 8 ≤ bs.length then
    if (bs.drop 8).length = beToNat (bs.take 8) * 784 + beToNat (bs.take 8) then
      some { x := { shape := [beToNat (bs.take 8), 784],
                    data := (bs.drop 8).take (beToNat (bs.take 8) * 784) },
             y := { shape := [beToNat (bs.take 8)],
                    data := (bs.drop 8).drop (beToNat (bs.take 8) * 784) } }
    else none
  else none

/-- Modelled from the spec: `numpy.load` applied to a cache file, the `load`
argument the source passes to the cache gate on line 83; an unreadable or
malformed file is a fatal I/O error. -/
def numpy_load (bs : List Nat) : Except PyErr RawSplit :=
  match npz_load bs with
  | some r => Except.ok r
  | none => Except.error PyErr.ioError

/-- Environment: for each URL, the decompressed contents of the gzip file the
download collaborator caches for it (network transfer and gzip decompression
are collaborators outside the source tree, modelled by their result). -/
structure Env where
  content : String → List Nat

/-- Explicit state threaded through the pipeline: the dataset directory as a
path-to-bytes association (newest write first), the list of URLs passed to
`download.cached_download` in order, and an instrumentation counter of parser
invocations used to state the at-most-once property of the cache gate. -/
structure World where
  fs : List (String × List Nat)
  downloads : List String
  parserRuns : Nat
deriving DecidableEq

def fsRead : List (String × List Nat) → String → Option (List Nat)
  | [], _ => none
  | (q, bs) :: rest, p => if p = q then some bs else fsRead rest p

def fsWrite (fs : List (String × List Nat)) (p : String) (bs : List Nat) :
    List (String × List Nat) :=
  (p, bs) :: fs

/-- Lines 86 to 108 of the source, `_make_npz`.  The two
`download.cached_download` calls are recorded in the world in order;
`gzip.open` yields the decompressed stream held by the environment; then the
block body `parse_streams` runs.  On a successful parse the result would be
written to `path` by `numpy.savez_compressed` and returned as the dictionary
with keys x and y; a raised exception leaves the filesystem untouched.  The
destructuring `x_url, y_url = urls` raises `ValueError` for a list whose
length is not two.  `parserRuns` is instrumentation counting entries into
this function. -/
def _make_npz (env : Env) (w : World) (path : String) (urls : List String) :
    Except PyErr RawSplit × World :=
  let w := { w with parserRuns := w.parserRuns + 1 }
  match urls with
  | [x_url, y_url] =>
    let w := { w with downloads := w.downloads ++ [x_url, y_url] }
    match parse_streams (env.content x_url) (env.content y_url) with
    | Except.error e => (Except.error e, w)
    | Except.ok r =>
      (Except.ok r, { w with fs := fsWrite w.fs path (npz_save r) })
  | _ => (Except.error (PyErr.valueError "values to unpack"), w)

/-- Modelled from the spec: `chainer.dataset.download.cached_create_file` is a
collaborator outside the source tree; section 4.3 of the spec defines it as
the cache gate `ensure_cached(path, produce, load)`: if a readable file exists
at `path`, return `load(path)` without running `produce`; otherwise run
`produce`, persist its result to `path` as a compressed serialized archive,
and return the in-memory result without reloading it.  Existence of an entry
in the filesystem stands for existence of a readable file.  A failing
`produce` propagates its error and persists nothing. -/
def cached_create_file (w : World) (path : String)
    (produce : World → Except PyErr RawSplit × World)
    (load : List Nat → Except PyErr RawSplit) :
    Except PyErr RawSplit × World :=
  match fsRead w.fs path with
  | some bs => (load bs, w)
  | none =>
    match produce w with
    | (Except.ok r, w2) =>
      (Except.ok r, { w2 with fs := fsWrite w2.fs path (npz_save r) })
    | (Except.error e, w2) => (Except.error e, w2)

/-- Lines 79 to 83, `_retrieve_mnist`: the cache path joins the dataset
directory resolved by the `download.get_dataset_directory` collaborator with
the split file name, and the gate wraps `_make_npz` and `numpy.load`. -/
def _retrieve_mnist (env : Env) (w : World) (name : String) (urls : List String) :
    Except PyErr RawSplit × World :=
  let path := "pfnet/chainer/mnist/" ++ name
  cached_create_file w path (fun w0 => _make_npz env w0 path urls) numpy_load

def train_urls : List String :=
  ["http://yann.lecun.com/exdb/mnist/train-images-idx3-ubyte.gz",
   "http://yann.lecun.com/exdb/mnist/train-labels-idx1-ubyte.gz"]

def test_urls : List String :=
  ["http://yann.lecun.com/exdb/mnist/t10k-images-idx3-ubyte.gz",
   "http://yann.lecun.com/exdb/mnist/t10k-labels-idx1-ubyte.gz"]

/-- Lines 67 to 70. -/
def _retrieve_mnist_training (env : Env) (w : World) :
    Except PyErr RawSplit × World :=
  _retrieve_mnist env w "train.npz" train_urls

/-- Lines 73 to 76. -/
def _retrieve_mnist_test (env : Env) (w : World) :
    Except PyErr RawSplit × World :=
  _retrieve_mnist env w "test.npz" test_urls

/-- Result of `_preprocess_mnist`: either the `TupleDataset` pairing
container (a collaborator outside the source tree, modelled as the pair of
its two tensors) or the bare image tensor. -/
inductive MnistDataset where
  | tuple (images : Tensor ℚ) (labels : Tensor Int)
  | imagesOnly (images : Tensor ℚ)
deriving DecidableEq

def MnistDataset.images : MnistDataset → Tensor ℚ
  | MnistDataset.tuple i _ => i
  | MnistDataset.imagesOnly i => i

def MnistDataset.isTuple : MnistDataset → Bool
  | MnistDataset.tuple _ _ => true
  | MnistDataset.imagesOnly _ => false

def MnistDataset.labelsData : MnistDataset → Option (List Int)
  | MnistDataset.tuple _ l => some l.data
  | MnistDataset.imagesOnly _ => none

/-- Value of one pixel after lines 57 and 58: cast to float and multiplied in
place by `scale / 255.` (float arithmetic taken exact, over `ℚ`). -/
def pixScale (scale : ℚ) (v : Nat) : ℚ := (v : ℚ) * (scale / 255)

/-- `ndarray.reshape(-1, dims...)`: the leading dimension is inferred from
the element count, and numpy raises `ValueError` when the element count is
not a multiple of the product of the given dimensions. -/
def reshape_m1 {α : Type} (t : Tensor α) (dims : List Nat) :
    Except PyErr (Tensor α) :=
  if 0 < dims.prod ∧ t.data.length % dims.prod = 0 then
    Except.ok { shape := t.data.length / dims.prod :: dims, data := t.data }
  else Except.error (PyErr.valueError "cannot reshape array")

/-- Lines 49 to 64, `_preprocess_mnist`: reshape per `ndim` (raising
`ValueError` outside 1, 2, 3), cast to float32 and scale by `scale / 255.`,
then either pair with the labels cast to int32 (exact here: label bytes are
below 256) in a `TupleDataset`, or return the images alone. -/
def _preprocess_mnist (raw : RawSplit) (withlabel : Bool) (ndim : Int)
    (scale : ℚ) : Except PyErr MnistDataset :=
  match (if ndim = 2 then reshape_m1 raw.x [28, 28]
         else if ndim = 3 then reshape_m1 raw.x [1, 28, 28]
         else if ndim ≠ 1 then
           Except.error (PyErr.valueError "invalid ndim for MNIST dataset")
         else Except.ok raw.x) with
  | Except.error e => Except.error e
  | Except.ok images0 =>
    let images : Tensor ℚ :=
      { shape := images0.shape, data := images0.data.map (pixScale scale) }
    if withlabel then
      let labels : Tensor Int :=
        { shape := raw.y.shape, data := raw.y.data.map (fun v => (v : Int)) }
      Except.ok (MnistDataset.tuple images labels)
    else
      Except.ok (MnistDataset.imagesOnly images)

/-- Lines 42 to 46, `get_mnist`: retrieve and preprocess the training split,
then the test split, and return the pair. -/
def get_mnist (env : Env) (w : World) (withlabel : Bool) (ndim : Int)
    (scale : ℚ) : Except PyErr (MnistDataset × MnistDataset) × World :=
  match _retrieve_mnist_training env w with
  | (Except.error e, w1) => (Except.error e, w1)
  | (Except.ok train_raw, w1) =>
    match _preprocess_mnist train_raw withlabel ndim scale with
    | Except.error e => (Except.error e, w1)
    | Except.ok train =>
      match _retrieve_mnist_test env w1 with
      | (Except.error e, w2) => (Except.error e, w2)
      | (Except.ok test_raw, w2) =>
        match _preprocess_mnist test_raw withlabel ndim scale with
        | Except.error e => (Except.error e, w2)
        | Except.ok test => (Except.ok (train, test), w2)

/-- A numpy ndarray by reference: a shape and the index of its flat data
buffer in the heap.  `reshape` and `astype` differ exactly in whether the
buffer index is shared or fresh. -/
structure NdArr where
  shape : List Nat
  buf : Nat
deriving DecidableEq

/-- Heap of flat data buffers (elements over `ℚ`, which embeds the uint8,
float32 and int32 values appearing in the normalizer). -/
structure Heap where
  bufs : List (List ℚ)
deriving DecidableEq

def Heap.read (h : Heap) (i : Nat) : List ℚ := h.bufs.getD i []

/-- Allocation appends a fresh buffer and returns its index. -/
def Heap.alloc (h : Heap) (data : List ℚ) : Heap × Nat :=
  ({ bufs := h.bufs ++ [data] }, h.bufs.length)

/-- In-place update of the buffer at index `i`. -/
def Heap.store (h : Heap) (i : Nat) (data : List ℚ) : Heap :=
  { bufs := h.bufs.set i data }

/-- Heap-level result of `_preprocess_mnist`: the arrays of the returned
dataset, by reference. -/
inductive HeapResult where
  | tuple (images labels : NdArr)
  | imagesOnly (images : NdArr)
deriving DecidableEq

/-- Heap-level `reshape(-1, dims...)`: a view, sharing the buffer. -/
def reshapeArr (h : Heap) (a : NdArr) (dims : List Nat) :
    Except PyErr NdArr :=
  if 0 < dims.prod ∧ (h.read a.buf).length % dims.prod = 0 then
    Except.ok { shape := (h.read a.buf).length / dims.prod :: dims, buf := a.buf }
  else Except.error (PyErr.valueError "cannot reshape array")

/-- Continuation of the heap-level normalizer after the reshape of lines 51
to 54: `astype` on line 57 allocates a fresh buffer holding the cast values;
the in-place `images *= scale / 255.` of line 58 stores into that buffer,
the one `astype` just allocated, never into a buffer of `raw`; the label
`astype` of line 61 allocates another fresh buffer. -/
def _preprocess_core (h : Heap) (y : NdArr) (withlabel : Bool) (scale : ℚ)
    (images0 : NdArr) : Except PyErr HeapResult × Heap :=
  let p := h.alloc (h.read images0.buf)
  let h1 := p.1
  let images := { images0 with buf := p.2 }
  let h2 := h1.store images.buf ((h1.read images.buf).map (· * (scale / 255)))
  if withlabel then
    let q := h2.alloc (h2.read y.buf)
    (Except.ok (HeapResult.tuple images { y with buf := q.2 }), q.1)
  else
    (Except.ok (HeapResult.imagesOnly images), h2)

/-- Lines 49 to 64 again, at the level of buffers, to state the frame
property.  `images = raw["x"]` and the reshapes of lines 51 to 54 are views
sharing the raw buffer; the rest of the function is `_preprocess_core`. -/
def _preprocess_mnist_heap (h : Heap) (x y : NdArr) (withlabel : Bool)
    (ndim : Int) (scale : ℚ) : Except PyErr HeapResult × Heap :=
  match (if ndim = 2 then reshapeArr h x [28, 28]
         else if ndim = 3 then reshapeArr h x [1, 28, 28]
         else if ndim ≠ 1 then
           Except.error (PyErr.valueError "invalid ndim for MNIST dataset")
         else Except.ok x) with
  | Except.error e => (Except.error e, h)
  | Except.ok images0 => _preprocess_core h y withlabel scale images0

theorem except_bind_ok {ε α β : Type} (a : α) (f : α → Except ε β) :
    (Except.ok a >>= f : Except ε β) = f a := rfl

theorem except_bind_error {ε α β : Type} (e : ε) (f : α → Except ε β) :
    ((Except.error e : Except ε α) >>= f) = Except.error e := rfl

/-- The parse body stops at the first swapped `struct.unpack` call: its
result is the error that call raises, on every input. -/
theorem parse_streams_eq (fx fy : List Nat) :
    parse_streams fx fy =
      Except.error (struct_unpack_swapped ((fx.drop 4).take 4)) := rfl

/-- Every run of the parse body raises, and never the consistency
`RuntimeError`. -/
theorem parse_streams_raises (fx fy : List Nat) :
    ∃ e, parse_streams fx fy = Except.error e ∧
      ∀ msg, e ≠ PyErr.runtimeError msg := by
  refine ⟨struct_unpack_swapped ((fx.drop 4).take 4), rfl, ?_⟩
  intro msg
  unfold struct_unpack_swapped
  split <;> simp

/-- A well-formed image stream with one record: magic 0x00000803, count 1,
both dimension fields 28, then 784 pixel bytes. -/
def fxOne : List Nat :=
  [0, 0, 8, 3] ++ [0, 0, 0, 1] ++ [0, 0, 0, 28, 0, 0, 0, 28] ++
    List.replicate 784 7

/-- A well-formed label stream with one record: magic 0x00000801, count 1,
one label byte. -/
def fyOne : List Nat := [0, 0, 8, 1] ++ [0, 0, 0, 1] ++ [5]

/-- A well-formed image stream declaring 100 records. -/
def fxHundred : List Nat :=
  [0, 0, 8, 3] ++ [0, 0, 0, 100] ++ [0, 0, 0, 28, 0, 0, 0, 28] ++
    List.replicate 78400 0

/-- A well-formed label stream declaring 99 records. -/
def fyNinetyNine : List Nat :=
  [0, 0, 8, 1] ++ [0, 0, 0, 99] ++ List.replicate 99 0

/-- C1: the claim says the parser skips the magic fields, reads each count as
a 4-byte big-endian unsigned integer, skips the dimension fields and reads
the `N * 784` image bytes and `N` label bytes.  The code instead passes the
four raw count bytes to `struct.unpack` as the format argument and the text
">i" as the buffer, so the call raises on every input (here `struct.error`,
since the count bytes of a well-formed pair of streams are not a valid format
string) and no stream is ever parsed: on the well-formed one-record pair the
parse raises, and on every input `_make_npz` returns an error and no
`RawSplit`. -/
theorem mnist_parse_never_succeeds :
    parse_streams fxOne fyOne = Except.error PyErr.structError ∧
    (∀ fx fy, ∃ e, parse_streams fx fy = Except.error e ∧
        ∀ msg, e ≠ PyErr.runtimeError msg) ∧
    (∀ env w path urls, ¬ ∃ r w1,
        _make_npz env w path urls = (Except.ok r, w1)) := by
  refine ⟨by decide, parse_streams_raises, ?_⟩
  rintro env w path urls ⟨r, w1, hmk⟩
  unfold _make_npz at hmk
  rcases urls with _ | ⟨xu, _ | ⟨yu, _ | _⟩⟩ <;> simp at hmk
  obtain ⟨e, he, -⟩ := parse_streams_raises (env.content xu) (env.content yu)
  rw [he] at hmk
  simp at hmk

/-- C2: the claim says a mismatched pair of counts (100 versus 99) fails with
the consistency error and a matching pair never raises it.  The code raises
`struct.error` from the swapped `struct.unpack` call before the two counts
are ever compared, so on the mismatched pair the error raised is not the
consistency `RuntimeError`, and in fact no input whatsoever can raise the
consistency error. -/
theorem mnist_mismatch_without_consistency_error :
    parse_streams fxHundred fyNinetyNine = Except.error PyErr.structError ∧
    PyErr.structError ≠
      PyErr.runtimeError "wrong pair of MNIST images and labels" ∧
    (∀ fx fy, parse_streams fx fy ≠
        Except.error (PyErr.runtimeError "wrong pair of MNIST images and labels")) := by
  refine ⟨by decide, by simp, ?_⟩
  intro fx fy hc
  obtain ⟨e, he, hne⟩ := parse_streams_raises fx fy
  rw [he] at hc
  exact hne _ (by injection hc)

theorem natToBE_length (k n : Nat) : (natToBE k n).length = k := by
  induction k generalizing n with
  | zero => rfl
  | succ k ih => simp [natToBE, ih]

theorem beToNat_append_single (bs : List Nat) (b : Nat) :
    beToNat (bs ++ [b]) = beToNat bs * 256 + b := by
  simp [beToNat, List.foldl_append]

theorem beToNat_natToBE (k n : Nat) : beToNat (natToBE k n) = n % 256 ^ k := by
  induction k generalizing n with
  | zero => simp [natToBE, beToNat, Nat.mod_one]
  | succ k ih =>
    rw [natToBE, beToNat_append_single, ih, Nat.pow_succ,
      mul_comm (256 ^ k) 256, Nat.mod_mul]
    ring

/-- Concrete one-record split used by the witnesses. -/
def r1 : RawSplit :=
  { x := { shape := [1, 784], data := List.replicate 784 7 },
    y := { shape := [1], data := [5] } }

/-- C4: persisting a well-formed `RawSplit` to the cache archive and loading
it back yields the identical `x` and `y` arrays (shapes included), for every
record count the 8-byte length prefix can hold. -/
theorem npz_roundtrip (r : RawSplit) (N : Nat) (h : r.wf N)
    (hN : N < 256 ^ 8) : npz_load (npz_save r) = some r := by
  obtain ⟨hxs, hxl, hys, hyl, -, -⟩ := h
  have hhdr : (natToBE 8 r.y.data.length).length = 8 := natToBE_length 8 _
  have htake : (npz_save r).take 8 = natToBE 8 r.y.data.length := by
    unfold npz_save; rw [List.append_assoc]; exact List.take_left' hhdr
  have hdrop : (npz_save r).drop 8 = r.x.data ++ r.y.data := by
    unfold npz_save; rw [List.append_assoc]; exact List.drop_left' hhdr
  have hcount : beToNat ((npz_save r).take 8) = N := by
    rw [htake, beToNat_natToBE, hyl, Nat.mod_eq_of_lt hN]
  have hlen8 : 8 ≤ (npz_save r).length := by
    unfold npz_save; simp [hhdr]
  have hrest : ((npz_save r).drop 8).length = N * 784 + N := by
    rw [hdrop]; simp [hxl, hyl]
  have hxtake : ((npz_save r).drop 8).take (N * 784) = r.x.data := by
    rw [hdrop]; exact List.take_left' hxl
  have hxdrop : ((npz_save r).drop 8).drop (N * 784) = r.y.data := by
    rw [hdrop]; exact List.drop_left' hxl
  unfold npz_load
  rw [if_pos hlen8, hcount, hrest, if_pos rfl, hxtake, hxdrop]
  cases r with
  | mk x y => cases x; cases y; simp_all

theorem r1_wf : r1.wf 1 := by
  refine ⟨rfl, ?_, rfl, rfl, ?_, ?_⟩
  · show (List.replicate 784 (7 : Nat)).length = 1 * 784
    rw [List.length_replicate]
  · intro b hb
    have hb7 : b = 7 := List.eq_of_mem_replicate hb
    omega
  · intro b hb
    have hb5 : b ∈ [(5 : Nat)] := hb
    have : b = 5 := by simpa using hb5
    omega

/-- Witness for C4 at the concrete one-record split. -/
theorem npz_roundtrip_witness :
    r1.wf 1 ∧ 1 < 256 ^ 8 ∧ npz_load (npz_save r1) = some r1 :=
  ⟨r1_wf, by norm_num, npz_roundtrip r1 1 r1_wf (by norm_num)⟩

/-- Sequential repetition of the cache gate on one path, keeping the world:
the call pattern of a single-process run that asks for the same split
repeatedly. -/
def gateIter (produce : World → Except PyErr RawSplit × World)
    (load : List Nat → Except PyErr RawSplit) (path : String) :
    Nat → World → World
  | 0, w => w
  | n + 1, w =>
    gateIter produce load path n (cached_create_file w path produce load).2

theorem fsRead_write (fs : List (String × List Nat)) (p : String)
    (bs : List Nat) : fsRead (fsWrite fs p bs) p = some bs := by
  simp [fsRead, fsWrite]

theorem gate_hit (w : World) (path : String)
    (produce : World → Except PyErr RawSplit × World)
    (load : List Nat → Except PyErr RawSplit) (bs : List Nat)
    (h : fsRead w.fs path = some bs) :
    cached_create_file w path produce load = (load bs, w) := by
  unfold cached_create_file
  rw [h]

theorem gateIter_of_present
    (produce : World → Except PyErr RawSplit × World)
    (load : List Nat → Except PyErr RawSplit) (path : String)
    (n : Nat) (w : World) (bs : List Nat)
    (h : fsRead w.fs path = some bs) :
    gateIter produce load path n w = w := by
  induction n with
  | zero => rfl
  | succ n ih =>
    rw [gateIter, gate_hit w path produce load bs h]
    exact ih

theorem gateIter_runs
    (produce : World → Except PyErr RawSplit × World)
    (load : List Nat → Except PyErr RawSplit) (path : String)
    (hRuns : ∀ w0, ((produce w0).2).parserRuns = w0.parserRuns + 1)
    (hOk : ∀ w0, ∃ r w1, produce w0 = (Except.ok r, w1)) :
    ∀ n w, (gateIter produce load path n w).parserRuns ≤ w.parserRuns + 1 := by
  intro n w
  cases n with
  | zero => simp [gateIter]
  | succ n =>
    rw [gateIter]
    cases hr : fsRead w.fs path with
    | some bs =>
      rw [gate_hit w path produce load bs hr,
        gateIter_of_present produce load path n w bs hr]
      omega
    | none =>
      obtain ⟨r, w1, hp⟩ := hOk w
      have hgate : cached_create_file w path produce load =
          (Except.ok r, { w1 with fs := fsWrite w1.fs path (npz_save r) }) := by
        unfold cached_create_file
        rw [hr, hp]
      rw [hgate]
      have hpres :
          fsRead ({ w1 with fs := fsWrite w1.fs path (npz_save r) } : World).fs
            path = some (npz_save r) := fsRead_write _ _ _
      rw [gateIter_of_present produce load path n _ _ hpres]
      have hw1 := hRuns w
      rw [hp] at hw1
      simp only at hw1 ⊢
      omega

/-- C3: on a hit the cache gate returns `load` applied to the stored bytes
and leaves the world (and so the parser-invocation count) unchanged; on a
miss it runs the producing parser, whose count then rises by exactly one,
persists the serialized archive to the path, and returns the in-memory parse
result; and along any sequential run of calls on the same path the parser
runs at most once beyond the starting count.  Stated for any producer that
counts its invocations in `parserRuns` and succeeds, and any loader. -/
theorem cached_create_file_spec
    (produce : World → Except PyErr RawSplit × World)
    (load : List Nat → Except PyErr RawSplit) (path : String)
    (hRuns : ∀ w0, ((produce w0).2).parserRuns = w0.parserRuns + 1)
    (hOk : ∀ w0, ∃ r w1, produce w0 = (Except.ok r, w1)) :
    (∀ w bs, fsRead w.fs path = some bs →
        cached_create_file w path produce load = (load bs, w)) ∧
    (∀ w r w1, fsRead w.fs path = none → produce w = (Except.ok r, w1) →
        cached_create_file w path produce load =
          (Except.ok r, { w1 with fs := fsWrite w1.fs path (npz_save r) }) ∧
        w1.parserRuns = w.parserRuns + 1) ∧
    (∀ n w, (gateIter produce load path n w).parserRuns ≤ w.parserRuns + 1) := by
  refine ⟨fun w bs h => gate_hit w path produce load bs h, ?_,
    gateIter_runs produce load path hRuns hOk⟩
  intro w r w1 hr hp
  constructor
  · unfold cached_create_file
    rw [hr, hp]
  · have hw1 := hRuns w
    rw [hp] at hw1
    simpa using hw1

/-- Producer used by the C3 witness: succeeds immediately and counts its
invocation. -/
def produceW (w : World) : Except PyErr RawSplit × World :=
  (Except.ok r1, { w with parserRuns := w.parserRuns + 1 })

/-- Empty starting world. -/
def w0 : World := { fs := [], downloads := [], parserRuns := 0 }

/-- Witness for C3: two sequential calls on a fresh path run the parser only
once. -/
theorem cached_create_file_spec_witness :
    (gateIter produceW numpy_load "p" 2 w0).parserRuns ≤ w0.parserRuns + 1 :=
  (cached_create_file_spec produceW numpy_load "p" (fun _ => rfl)
    (fun w => ⟨r1, { w with parserRuns := w.parserRuns + 1 }, rfl⟩)).2.2 2 w0

/-- Computed result of the normalizer at `ndim = 1`: images kept flat. -/
theorem preprocess_eq_one (raw : RawSplit) (wl : Bool) (s : ℚ) :
    _preprocess_mnist raw wl 1 s = Except.ok
      (if wl then
        MnistDataset.tuple
          { shape := raw.x.shape, data := raw.x.data.map (pixScale s) }
          { shape := raw.y.shape, data := raw.y.data.map (fun v => (v : Int)) }
      else
        MnistDataset.imagesOnly
          { shape := raw.x.shape, data := raw.x.data.map (pixScale s) }) := by
  cases wl <;> rfl

/-- Computed result of the normalizer at `ndim = 2`. -/
theorem preprocess_eq_two (raw : RawSplit) (N : Nat) (wl : Bool) (s : ℚ)
    (hxl : raw.x.data.length = N * 784) :
    _preprocess_mnist raw wl 2 s = Except.ok
      (if wl then
        MnistDataset.tuple
          { shape := [N, 28, 28], data := raw.x.data.map (pixScale s) }
          { shape := raw.y.shape, data := raw.y.data.map (fun v => (v : Int)) }
      else
        MnistDataset.imagesOnly
          { shape := [N, 28, 28], data := raw.x.data.map (pixScale s) }) := by
  have hdiv : N * 784 / 784 = N := by omega
  have hresh : reshape_m1 raw.x [28, 28] =
      Except.ok { shape := [N, 28, 28], data := raw.x.data } := by
    unfold reshape_m1
    have hp : List.prod [28, 28] = 784 := by decide
    rw [hp, if_pos ⟨by norm_num, by rw [hxl]; exact Nat.mul_mod_left N 784⟩,
      hxl, hdiv]
  unfold _preprocess_mnist
  rw [if_pos rfl, hresh]
  cases wl <;> rfl

/-- Computed result of the normalizer at `ndim = 3`. -/
theorem preprocess_eq_three (raw : RawSplit) (N : Nat) (wl : Bool) (s : ℚ)
    (hxl : raw.x.data.length = N * 784) :
    _preprocess_mnist raw wl 3 s = Except.ok
      (if wl then
        MnistDataset.tuple
          { shape := [N, 1, 28, 28], data := raw.x.data.map (pixScale s) }
          { shape := raw.y.shape, data := raw.y.data.map (fun v => (v : Int)) }
      else
        MnistDataset.imagesOnly
          { shape := [N, 1, 28, 28], data := raw.x.data.map (pixScale s) }) := by
  have hdiv : N * 784 / 784 = N := by omega
  have hresh : reshape_m1 raw.x [1, 28, 28] =
      Except.ok { shape := [N, 1, 28, 28], data := raw.x.data } := by
    unfold reshape_m1
    have hp : List.prod [1, 28, 28] = 784 := by decide
    rw [hp, if_pos ⟨by norm_num, by rw [hxl]; exact Nat.mul_mod_left N 784⟩,
      hxl, hdiv]
  unfold _preprocess_mnist
  rw [if_neg (by decide), if_pos rfl, hresh]
  cases wl <;> rfl

/-- C5: for a well-formed split with `N` records the normalizer succeeds on
every valid `ndim`, the image element count is `N * 784`, and the shape is
`(N, 784)`, `(N, 28, 28)` or `(N, 1, 28, 28)` for `ndim` 1, 2 and 3. -/
theorem normalize_shapes (raw : RawSplit) (N : Nat) (wl : Bool) (s : ℚ)
    (h : raw.wf N) :
    (∃ d, _preprocess_mnist raw wl 1 s = Except.ok d ∧
        d.images.shape = [N, 784] ∧ d.images.data.length = N * 784) ∧
    (∃ d, _preprocess_mnist raw wl 2 s = Except.ok d ∧
        d.images.shape = [N, 28, 28] ∧ d.images.data.length = N * 784) ∧
    (∃ d, _preprocess_mnist raw wl 3 s = Except.ok d ∧
        d.images.shape = [N, 1, 28, 28] ∧ d.images.data.length = N * 784) := by
  obtain ⟨hxs, hxl, -, -, -, -⟩ := h
  refine ⟨⟨_, preprocess_eq_one raw wl s, ?_, ?_⟩,
          ⟨_, preprocess_eq_two raw N wl s hxl, ?_, ?_⟩,
          ⟨_, preprocess_eq_three raw N wl s hxl, ?_, ?_⟩⟩ <;>
    cases wl <;> simp [MnistDataset.images, hxs, hxl]

/-- Witness for C5 at the concrete one-record split with `ndim = 2`. -/
theorem normalize_shapes_witness :
    r1.wf 1 ∧ (∃ d, _preprocess_mnist r1 true 2 1 = Except.ok d ∧
        d.images.shape = [1, 28, 28] ∧ d.images.data.length = 1 * 784) :=
  ⟨r1_wf, (normalize_shapes r1 1 true 1 r1_wf).2.1⟩

/-- C6: for every `ndim` outside 1, 2, 3 the normalizer fails immediately
with the configuration `ValueError`. -/
theorem normalize_invalid_ndim (raw : RawSplit) (wl : Bool) (s : ℚ)
    (ndim : Int) (h1 : ndim ≠ 1) (h2 : ndim ≠ 2) (h3 : ndim ≠ 3) :
    _preprocess_mnist raw wl ndim s =
      Except.error (PyErr.valueError "invalid ndim for MNIST dataset") := by
  unfold _preprocess_mnist
  rw [if_neg h2, if_neg h3, if_pos h1]

/-- Witness for C6 at `ndim = 0`. -/
theorem normalize_invalid_ndim_witness :
    ((0 : Int) ≠ 1 ∧ (0 : Int) ≠ 2 ∧ (0 : Int) ≠ 3) ∧
    _preprocess_mnist r1 true 0 1 =
      Except.error (PyErr.valueError "invalid ndim for MNIST dataset") :=
  ⟨⟨by decide, by decide, by decide⟩,
    normalize_invalid_ndim r1 true 1 0 (by decide) (by decide) (by decide)⟩

/-- C7: for positive `scale` and valid `ndim` the normalizer maps each raw
pixel byte `v` to exactly `v * scale / 255`, every output pixel lies in
`[0, scale]`, byte 255 maps exactly to `scale` and byte 0 maps exactly
to 0 (float arithmetic taken exact). -/
theorem normalize_pixel_scaling (raw : RawSplit) (N : Nat) (wl : Bool)
    (ndim : Int) (s : ℚ) (h : raw.wf N) (hs : 0 < s)
    (hn : ndim = 1 ∨ ndim = 2 ∨ ndim = 3) :
    (∃ d, _preprocess_mnist raw wl ndim s = Except.ok d ∧
        d.images.data = raw.x.data.map (pixScale s) ∧
        ∀ p ∈ d.images.data, 0 ≤ p ∧ p ≤ s) ∧
    pixScale s 255 = s ∧ pixScale s 0 = 0 := by
  obtain ⟨hxs, hxl, -, -, hxb, -⟩ := h
  have hbound : ∀ p ∈ raw.x.data.map (pixScale s), 0 ≤ p ∧ p ≤ s := by
    intro p hp
    rw [List.mem_map] at hp
    obtain ⟨v, hv, rfl⟩ := hp
    simp only [pixScale]
    have hv255 : (v : ℚ) ≤ 255 := by
      have hvlt := hxb v hv
      exact_mod_cast Nat.le_of_lt_succ hvlt
    have h255 : (0 : ℚ) ≤ s / 255 := by positivity
    refine ⟨mul_nonneg (by positivity) h255, ?_⟩
    calc (v : ℚ) * (s / 255) ≤ 255 * (s / 255) :=
          mul_le_mul_of_nonneg_right hv255 h255
      _ = s := by field_simp
  have hdata : ∃ d, _preprocess_mnist raw wl ndim s = Except.ok d ∧
      d.images.data = raw.x.data.map (pixScale s) := by
    rcases hn with rfl | rfl | rfl
    · exact ⟨_, preprocess_eq_one raw wl s,
        by cases wl <;> simp [MnistDataset.images]⟩
    · exact ⟨_, preprocess_eq_two raw N wl s hxl,
        by cases wl <;> simp [MnistDataset.images]⟩
    · exact ⟨_, preprocess_eq_three raw N wl s hxl,
        by cases wl <;> simp [MnistDataset.images]⟩
  obtain ⟨d, hd, hdd⟩ := hdata
  refine ⟨⟨d, hd, hdd, by rw [hdd]; exact hbound⟩, ?_, ?_⟩
  · unfold pixScale
    field_simp
  · unfold pixScale
    simp

/-- Witness for C7 at the concrete one-record split and `scale = 1`. -/
theorem normalize_pixel_scaling_witness :
    r1.wf 1 ∧ (0 : ℚ) < 1 ∧ pixScale 1 255 = 1 ∧ pixScale 1 0 = 0 :=
  ⟨r1_wf, by norm_num,
    (normalize_pixel_scaling r1 1 true 1 1 r1_wf (by norm_num) (Or.inl rfl)).2⟩

/-- Inversion of a successful normalizer run: the result is the paired
container exactly when labels were requested, with the labels of the raw
split cast pointwise to signed integers. -/
theorem preprocess_ok_inv (raw : RawSplit) (wl : Bool) (ndim : Int) (s : ℚ)
    (d : MnistDataset)
    (hd : _preprocess_mnist raw wl ndim s = Except.ok d) :
    ∃ t : Tensor Nat,
      d = if wl then
            MnistDataset.tuple
              { shape := t.shape, data := t.data.map (pixScale s) }
              { shape := raw.y.shape,
                data := raw.y.data.map (fun v => (v : Int)) }
          else
            MnistDataset.imagesOnly
              { shape := t.shape, data := t.data.map (pixScale s) } := by
  unfold _preprocess_mnist at hd
  split at hd
  · exact absurd hd (by simp)
  · rename_i images0 heq
    refine ⟨images0, ?_⟩
    cases wl <;> simp_all

theorem preprocess_isTuple (raw : RawSplit) (wl : Bool) (ndim : Int) (s : ℚ)
    (d : MnistDataset)
    (hd : _preprocess_mnist raw wl ndim s = Except.ok d) :
    d.isTuple = wl ∧
      d.labelsData =
        if wl then some (raw.y.data.map (fun v => (v : Int))) else none := by
  obtain ⟨t, rfl⟩ := preprocess_ok_inv raw wl ndim s d hd
  cases wl <;> simp [MnistDataset.isTuple, MnistDataset.labelsData]

/-- Inversion of a successful `get_mnist` run: both returned datasets come
out of the normalizer with the requested `withlabel`. -/
theorem get_mnist_ok_inv (env : Env) (w : World) (wl : Bool) (ndim : Int)
    (s : ℚ) (tr te : MnistDataset) (w1 : World)
    (hg : get_mnist env w wl ndim s = (Except.ok (tr, te), w1)) :
    (∃ rawT, _preprocess_mnist rawT wl ndim s = Except.ok tr) ∧
    (∃ rawE, _preprocess_mnist rawE wl ndim s = Except.ok te) := by
  unfold get_mnist at hg
  split at hg
  · simp at hg
  · rename_i rawT wA heqA
    split at hg
    · simp at hg
    · rename_i train hB
      split at hg
      · simp at hg
      · rename_i rawE wB heqC
        split at hg
        · simp at hg
        · rename_i test hD
          simp only [Prod.mk.injEq] at hg
          obtain ⟨hok, -⟩ := hg
          injection hok with hpp
          have htr : train = tr := congrArg Prod.fst hpp
          have hte : test = te := congrArg Prod.snd hpp
          exact ⟨⟨rawT, htr ▸ hB⟩, ⟨rawE, hte ▸ hD⟩⟩

/-- C8: with `withlabel` true the normalizer returns the paired container
whose labels are the raw labels cast to signed integers; with `withlabel`
false it returns only the image tensor; and the train and test results of
`get_mnist` have the same two forms. -/
theorem normalize_withlabel_forms (raw : RawSplit) (ndim : Int) (s : ℚ) :
    (∀ d, _preprocess_mnist raw true ndim s = Except.ok d →
        d.isTuple = true ∧
        d.labelsData = some (raw.y.data.map (fun v => (v : Int)))) ∧
    (∀ d, _preprocess_mnist raw false ndim s = Except.ok d →
        d.isTuple = false ∧ d.labelsData = none) ∧
    (∀ env w tr te w1,
        get_mnist env w true ndim s = (Except.ok (tr, te), w1) →
        tr.isTuple = true ∧ te.isTuple = true) ∧
    (∀ env w tr te w1,
        get_mnist env w false ndim s = (Except.ok (tr, te), w1) →
        tr.isTuple = false ∧ te.isTuple = false) := by
  refine ⟨?_, ?_, ?_, ?_⟩
  · intro d hd
    have h := preprocess_isTuple raw true ndim s d hd
    simpa using h
  · intro d hd
    have h := preprocess_isTuple raw false ndim s d hd
    simpa using h
  · intro env w tr te w1 hg
    obtain ⟨⟨rawT, hT⟩, ⟨rawE, hE⟩⟩ :=
      get_mnist_ok_inv env w true ndim s tr te w1 hg
    exact ⟨(preprocess_isTuple rawT true ndim s tr hT).1,
           (preprocess_isTuple rawE true ndim s te hE).1⟩
  · intro env w tr te w1 hg
    obtain ⟨⟨rawT, hT⟩, ⟨rawE, hE⟩⟩ :=
      get_mnist_ok_inv env w false ndim s tr te w1 hg
    exact ⟨(preprocess_isTuple rawT false ndim s tr hT).1,
           (preprocess_isTuple rawE false ndim s te hE).1⟩

/-- Zero-record split used by the `get_mnist` witness (its cache files make
both retrievals cache hits, the only way the broken parser lets the pipeline
succeed). -/
def r0 : RawSplit :=
  { x := { shape := [0, 784], data := [] }, y := { shape := [0], data := [] } }

def envC : Env := { content := fun _ => [] }

def worldC : World :=
  { fs := [("pfnet/chainer/mnist/train.npz", npz_save r0),
           ("pfnet/chainer/mnist/test.npz", npz_save r0)],
    downloads := [], parserRuns := 0 }

def dC : MnistDataset :=
  MnistDataset.tuple { shape := [0, 784], data := [] }
    { shape := [0], data := [] }

def resultKinds (e : Except PyErr (MnistDataset × MnistDataset)) :
    Option (Bool × Bool) :=
  match e with
  | Except.ok p => some (p.1.isTuple, p.2.isTuple)
  | Except.error _ => none

/-- Witness for C8: a run of `get_mnist` with labels requested returns two
paired containers. -/
theorem normalize_withlabel_forms_witness :
    resultKinds (get_mnist envC worldC true 1 1).1 = some (true, true) := by
  have hg : get_mnist envC worldC true 1 1 =
      (Except.ok (dC, dC), worldC) := by rfl
  have h := (normalize_withlabel_forms r0 1 1).2.2.1 envC worldC dC dC worldC hg
  rw [hg]
  simp [resultKinds, h.1, h.2]

theorem heap_pre_getElem (l : List (List ℚ)) (c m : List ℚ) (i : Nat)
    (hi : i < l.length) :
    ((l ++ [c]).set l.length m)[i]? = l[i]? := by
  rw [List.getElem?_set_ne (by omega)]
  exact List.getElem?_append_left hi

theorem heap_pre_getElem2 (l : List (List ℚ)) (c m c2 : List ℚ) (i : Nat)
    (hi : i < l.length) :
    ((((l ++ [c]).set l.length m) ++ [c2]))[i]? = l[i]? := by
  have hl : i < ((l ++ [c]).set l.length m).length := by
    rw [List.length_set, List.length_append]
    simp only [List.length_singleton]
    omega
  rw [List.getElem?_append_left hl]
  exact heap_pre_getElem l c m i hi

theorem heap_core_frame (h : Heap) (y : NdArr) (wl : Bool) (s : ℚ)
    (images0 : NdArr) (i : Nat) (hi : i < h.bufs.length) :
    ((_preprocess_core h y wl s images0).2).bufs[i]? = h.bufs[i]? := by
  unfold _preprocess_core
  cases wl
  · exact heap_pre_getElem h.bufs _ _ i hi
  · exact heap_pre_getElem2 h.bufs _ _ _ i hi

/-- C9: the normalizer writes only to buffers it allocates itself: every
buffer that exists before the call, in particular the raw image and label
buffers, holds the same contents afterwards, so the call has no side effect
on its inputs and its result is a function of
`raw`, `withlabel`, `ndim` and `scale` alone. -/
theorem normalize_no_side_effects (h : Heap) (x y : NdArr) (wl : Bool)
    (ndim : Int) (s : ℚ) (i : Nat) (hi : i < h.bufs.length) :
    ((_preprocess_mnist_heap h x y wl ndim s).2).bufs[i]? = h.bufs[i]? := by
  unfold _preprocess_mnist_heap
  cases hres : (if ndim = 2 then reshapeArr h x [28, 28]
      else if ndim = 3 then reshapeArr h x [1, 28, 28]
      else if ndim ≠ 1 then
        Except.error (PyErr.valueError "invalid ndim for MNIST dataset")
      else Except.ok x) with
  | error e => rfl
  | ok images0 => exact heap_core_frame h y wl s images0 i hi

/-- Heap, image array and label array for the C9 witness. -/
def heapW : Heap := { bufs := [[1, 2], [3]] }

def xW : NdArr := { shape := [2], buf := 0 }

def yW : NdArr := { shape := [1], buf := 1 }

/-- Witness for C9 on a two-buffer heap. -/
theorem normalize_no_side_effects_witness :
    0 < heapW.bufs.length ∧
    ((_preprocess_mnist_heap heapW xW yW true 1 1).2).bufs[0]? =
      heapW.bufs[0]? :=
  ⟨by decide, normalize_no_side_effects heapW xW yW true 1 1 0 (by decide)⟩

def exceptIsOk {ε α : Type} : Except ε α → Bool
  | Except.ok _ => true
  | Except.error _ => false

/-- Success of the normalizer does not depend on `withlabel` (the only
failure points, the reshape and the `ndim` check, come first). -/
theorem preprocess_isOk_withlabel (raw : RawSplit) (a b : Bool) (ndim : Int)
    (s : ℚ) :
    exceptIsOk (_preprocess_mnist raw a ndim s) =
      exceptIsOk (_preprocess_mnist raw b ndim s) := by
  unfold _preprocess_mnist
  cases hres : (if ndim = 2 then reshape_m1 raw.x [28, 28]
      else if ndim = 3 then reshape_m1 raw.x [1, 28, 28]
      else if ndim ≠ 1 then
        Except.error (PyErr.valueError "invalid ndim for MNIST dataset")
      else Except.ok raw.x) with
  | error e => rfl
  | ok images0 => cases a <;> cases b <;> rfl

/-- The final world of `get_mnist` does not depend on `withlabel`. -/
theorem get_mnist_world_withlabel (env : Env) (w : World) (ndim : Int)
    (s : ℚ) (a b : Bool) :
    (get_mnist env w a ndim s).2 = (get_mnist env w b ndim s).2 := by
  unfold get_mnist
  split
  · rfl
  · rename_i rawT wA heqA
    have hok := preprocess_isOk_withlabel rawT a b ndim s
    cases hB : _preprocess_mnist rawT a ndim s with
    | error e =>
      cases hB2 : _preprocess_mnist rawT b ndim s with
      | error e2 => rfl
      | ok d2 =>
        rw [hB, hB2] at hok
        simp [exceptIsOk] at hok
    | ok d =>
      cases hB2 : _preprocess_mnist rawT b ndim s with
      | error e2 =>
        rw [hB, hB2] at hok
        simp [exceptIsOk] at hok
      | ok d2 =>
        dsimp only
        split
        · rfl
        · rename_i rawE wB heqC
          have hok2 := preprocess_isOk_withlabel rawE a b ndim s
          cases hD : _preprocess_mnist rawE a ndim s with
          | error e =>
            cases hD2 : _preprocess_mnist rawE b ndim s with
            | error e2 => rfl
            | ok d4 => rw [hD, hD2] at hok2
          | ok d3 =>
            cases hD2 : _preprocess_mnist rawE b ndim s with
            | error e2 => rw [hD, hD2] at hok2
            | ok d4 => rfl

/-- C10: the fetch and parse layer never sees `withlabel`: `_make_npz`
always hands the image URL and then the label URL to the download
collaborator, and the final world of `get_mnist` is the same for
`withlabel` true and false.  And because the parse raises on every input,
`_make_npz` never writes any cache entry at all (`numpy.savez_compressed`
on line 107 is unreachable), so in particular no entry lacking the label
array is ever persisted and labels never reach a returned value except
through the normalizer. -/
theorem pipeline_label_fetch_and_withlabel :
    (∀ env w path x_url y_url,
        ((_make_npz env w path [x_url, y_url]).2).downloads =
          w.downloads ++ [x_url, y_url]) ∧
    (∀ env w path urls, ((_make_npz env w path urls).2).fs = w.fs) ∧
    (∀ env w ndim s a b,
        (get_mnist env w a ndim s).2 = (get_mnist env w b ndim s).2) := by
  refine ⟨?_, ?_, fun env w ndim s a b =>
    get_mnist_world_withlabel env w ndim s a b⟩
  · intro env w path xu yu
    obtain ⟨e, he, -⟩ :=
      parse_streams_raises (env.content xu) (env.content yu)
    simp only [_make_npz]
    rw [he]
  · intro env w path urls
    rcases urls with _ | ⟨xu, _ | ⟨yu, _ | _⟩⟩ <;> simp only [_make_npz]
    obtain ⟨e, he, -⟩ :=
      parse_streams_raises (env.content xu) (env.content yu)
    rw [he]

/-- Witness for C1: the parse evaluated at the concrete well-formed
one-record pair. -/
theorem mnist_parse_never_succeeds_witness :
    parse_streams fxOne fyOne = Except.error PyErr.structError :=
  mnist_parse_never_succeeds.1

/-- Witness for C2: the parse evaluated at the concrete mismatched pair. -/
theorem mnist_mismatch_without_consistency_error_witness :
    parse_streams fxHundred fyNinetyNine = Except.error PyErr.structError :=
  mnist_mismatch_without_consistency_error.1

/-- Witness for C10: downloads recorded by `_make_npz` at a concrete world,
label URL included. -/
theorem pipeline_label_fetch_and_withlabel_witness :
    ((_make_npz envC worldC "p" ["ux", "uy"]).2).downloads =
      worldC.downloads ++ ["ux", "uy"] :=
  pipeline_label_fetch_and_withlabel.1 envC worldC "p" "ux" "uy"
